import Mathlib

/-!
Verification of the DonPAPI MCP adapter (`src/mcp_server.py`).

The adapter has three parts: a Command Runner (`run_donpapi_command`),
a GUI Process Manager (the `donpapi_start_gui` / `donpapi_stop_gui`
branches of `call_tool` mutating the module-global `gui_process`), and
the tool dispatch (`call_tool`).  Subprocess effects are modelled by an
explicit outcome environment: what `subprocess.run` did (`ExecOutcome`)
and what `subprocess.Popen` did (`SpawnOutcome`).  The module-global
`gui_process` becomes an explicit `ServerState` threaded through
`call_tool`, and the observable effects of one call (text returned,
new state, the argument vector handed to the Command Runner, processes
spawned and processes sent a terminate request) are collected in
`CallOutput`.
-/

/-- A spawned OS process as the adapter can observe it: an identifier and
the result of `poll()` — `none` while the process is still running,
`some c` once it has exited with code `c`. -/
structure Proc where
  pid : Nat
  exitCode : Option Int

/-- `Popen.poll()`: `none` iff the process is still alive. -/
def Proc.poll (p : Proc) : Option Int := p.exitCode

/-- The module-global mutable state of `mcp_server.py`: the single
`gui_process` handle (`None` initially). -/
structure ServerState where
  gui_process : Option Proc

/-- The parameter bundle of a tool call, typed per the declared input
schemas (`list_tools`): a field is `none` when the key is absent from
the `arguments` dict. -/
structure Arguments where
  username : Option String
  password : Option String
  domain : Option String
  hashes : Option String
  use_kerberos : Option Bool
  targets : Option String
  collectors : Option String
  threads : Option Int
  port : Option Int
  bind : Option String

/-- The bundle with every key absent. -/
def Arguments.empty : Arguments :=
  ⟨none, none, none, none, none, none, none, none, none, none⟩

/-- What `subprocess.run` did: normal completion with an exit code and
captured output, a `TimeoutExpired`, or some other exception with its
string description. -/
inductive ExecOutcome where
  | completed (returncode : Int) (stdout stderr : String)
  | timedOut
  | failed (msg : String)

/-- What `subprocess.Popen` did in the `start_gui` branch: produced a
process, or raised with the given string description. -/
inductive SpawnOutcome where
  | ok (p : Proc)
  | raise (msg : String)

/-- The environment of one `call_tool` invocation: the behaviour of the
subprocess primitives during that call. -/
structure World where
  collectOutcome : ExecOutcome
  spawnOutcome : SpawnOutcome

/-- The dict returned by `run_donpapi_command`: either the normal-exit
shape `{success, stdout, stderr, command}` or the failure shape
`{success, error}`. -/
inductive RunResult where
  | ok (success : Bool) (stdout stderr command : String)
  | err (success : Bool) (msg : String)

/-- The `success` field of the result dict. -/
def RunResult.successFlag : RunResult → Bool
  | .ok s _ _ _ => s
  | .err s _ => s

/-- Python `sep.join(xs)`. -/
def pyJoin (sep : String) : List String → String
  | [] => ""
  | x :: xs => xs.foldl (fun acc y => acc ++ sep ++ y) x

/-- Helper for `pySplit`: walk the characters, accumulating the current
word (reversed); whitespace closes the word, empty words are never
emitted. -/
def wsSplitAux (cur : List Char) : List Char → List String
  | [] => if cur = [] then [] else [String.mk cur.reverse]
  | c :: cs =>
      if c.isWhitespace then
        if cur = [] then wsSplitAux [] cs
        else String.mk cur.reverse :: wsSplitAux [] cs
      else wsSplitAux (c :: cur) cs

/-- Python `s.split()` with no argument: split on runs of whitespace,
discarding empty pieces. -/
def pySplit (s : String) : List String :=
  wsSplitAux [] s.data

/-- The Python default value of `run_donpapi_command`'s `timeout`
parameter. -/
def defaultTimeout : Nat := 600

/-- `int(os.environ.get("DONPAPI_GUI_PORT", "8088"))`, with the
environment variable already parsed to an integer when present. -/
def GUI_PORT (envPort : Option Int) : Int := envPort.getD 8088

/-- `os.environ.get("DONPAPI_OUTPUT", "/root/.donpapi/loot")`. -/
def OUTPUT_DIR (envDir : Option String) : String :=
  envDir.getD "/root/.donpapi/loot"

/-- `run_donpapi_command(args, timeout)`: prepend `"donpapi"`, run the
subprocess, and translate each possible outcome into a result dict.
The Python `try/except` catches every exception, so the function is
total: every outcome is mapped to a `RunResult`, none is propagated. -/
def run_donpapi_command (args : List String) (outcome : ExecOutcome)
    (timeout : Nat) : RunResult :=
  let cmd := "donpapi" :: args
  match outcome with
  | .completed rc out errTxt => .ok (rc == 0) out errTxt (pyJoin " " cmd)
  | .timedOut =>
      .err false ("Command timed out after " ++ toString timeout ++ "s")
  | .failed msg => .err false msg

/-- The argument-vector construction of the `donpapi_collect` branch of
`call_tool` (`src/mcp_server.py` lines 102–125), statement by
statement. -/
def buildCollectArgs (arguments : Arguments) : List String :=
  let args := ["collect"]
  let args := match arguments.username with
    | some u => args ++ ["-u", u]
    | none => args
  let args := match arguments.password with
    | some p => args ++ ["-p", p]
    | none => args
  let args := match arguments.domain with
    | some d => args ++ ["-d", d]
    | none => args
  let args := match arguments.hashes with
    | some h => args ++ ["-H", h]
    | none => args
  let args := if arguments.use_kerberos = some true then args ++ ["-k"] else args
  let args := match arguments.targets with
    | some t => args ++ ("-t" :: pySplit t)
    | none => args
  let args := match arguments.collectors with
    | some c => args ++ ["-c", c]
    | none => args
  let args := match arguments.threads with
    | some n => args ++ ["--threads", toString n]
    | none => args
  args

/-- Rendering of the result dict returned to the caller
(`json.dumps(result, indent=2)`), modelled as a plain JSON-shaped
string; no claim constrains its exact text. -/
def renderRunResult : RunResult → String
  | .ok s o e c =>
      "\x7b \"success\": " ++ (if s then "true" else "false")
        ++ ", \"stdout\": \"" ++ o ++ "\", \"stderr\": \"" ++ e
        ++ "\", \"command\": \"" ++ c ++ "\" \x7d"
  | .err s m =>
      "\x7b \"success\": " ++ (if s then "true" else "false")
        ++ ", \"error\": \"" ++ m ++ "\" \x7d"

/-- The observable effects of one `call_tool` invocation: the text
content returned, the module state afterwards, the argument vector
passed to `run_donpapi_command` (when the collect branch ran), the
command lines successfully spawned via `Popen`, and the processes that
were sent `terminate()`. -/
structure CallOutput where
  text : String
  state : ServerState
  ranArgs : Option (List String)
  spawned : List (List String)
  terminated : List Proc

/-- The spawn half of the `donpapi_start_gui` branch (lines 134–148):
resolve defaults, build the GUI command line, and either store the new
handle or report the exception.  On `Popen` raising, the assignment to
`gui_process` never happens, so the state is returned unchanged. -/
def startGuiSpawn (arguments : Arguments) (st : ServerState) (w : World)
    (guiPort : Int) : CallOutput :=
  let port := arguments.port.getD guiPort
  let bind := arguments.bind.getD "0.0.0.0"
  let cmd := ["donpapi", "gui", "--bind", bind, "--port", toString port]
  match w.spawnOutcome with
  | .ok p =>
      ⟨"DonPAPI GUI started on http://" ++ bind ++ ":" ++ toString port,
        ⟨some p⟩, none, [cmd], []⟩
  | .raise e =>
      ⟨"Failed to start GUI: " ++ e, st, none, [], []⟩

/-- `call_tool(name, arguments)` (lines 98–159), as a transition on the
explicit server state.  The `donpapi_start_gui` guard is Python's
`if gui_process and gui_process.poll() is None`; the `donpapi_stop_gui`
branch tests only `if gui_process`, with no liveness check. -/
def call_tool (name : String) (arguments : Arguments) (st : ServerState)
    (w : World) (guiPort : Int) : CallOutput :=
  if name = "donpapi_collect" then
    let args := buildCollectArgs arguments
    let result := run_donpapi_command args w.collectOutcome defaultTimeout
    ⟨renderRunResult result, st, some args, [], []⟩
  else if name = "donpapi_start_gui" then
    match st.gui_process with
    | some p =>
        if p.poll = none then
          ⟨"GUI is already running.", st, none, [], []⟩
        else startGuiSpawn arguments st w guiPort
    | none => startGuiSpawn arguments st w guiPort
  else if name = "donpapi_stop_gui" then
    match st.gui_process with
    | some p => ⟨"DonPAPI GUI stopped.", ⟨none⟩, none, [], [p]⟩
    | none => ⟨"GUI is not running.", st, none, [], []⟩
  else
    ⟨"Unknown tool: " ++ name, st, none, [], []⟩

/-! Spec-side description of the collect argument vector (§4.1 of the
spec): a fixed sequence of blocks, one per parameter, each present
exactly when the parameter is. -/

/-- Spec-side: a flag followed by its value, when the parameter is
present; nothing otherwise. -/
def optFlag (flag : String) : Option String → List String
  | some v => [flag, v]
  | none => []

/-- Spec-side: the bare `-k` token, only when the Kerberos flag is
true. -/
def kerbFlagSpec (k : Option Bool) : List String :=
  if k = some true then ["-k"] else []

/-- Spec-side: `-t` followed by each whitespace-split token of the
target string. -/
def targetsBlockSpec : Option String → List String
  | some t => "-t" :: pySplit t
  | none => []

/-- Spec-side: `--threads` followed by the thread count rendered as a
string. -/
def threadsBlockSpec : Option Int → List String
  | some n => ["--threads", toString n]
  | none => []

/-- Spec-side: the whole argument vector as §4.1 lists it —
`["collect"]` then the username, password, domain, hashes, Kerberos,
targets, collectors and threads blocks in that fixed order. -/
def collectArgsSpec (a : Arguments) : List String :=
  ["collect"] ++ optFlag "-u" a.username ++ optFlag "-p" a.password
    ++ optFlag "-d" a.domain ++ optFlag "-H" a.hashes
    ++ kerbFlagSpec a.use_kerberos ++ targetsBlockSpec a.targets
    ++ optFlag "-c" a.collectors ++ threadsBlockSpec a.threads

/-- Every token that enters the collect vector as a parameter *value*
(as opposed to a flag emitted by the builder itself). -/
def collectValueTokens (a : Arguments) : List String :=
  a.username.toList ++ a.password.toList ++ a.domain.toList
    ++ a.hashes.toList
    ++ (match a.targets with | some t => pySplit t | none => [])
    ++ a.collectors.toList ++ (a.threads.map toString).toList

theorem buildCollectArgs_eq_spec (a : Arguments) :
    buildCollectArgs a = collectArgsSpec a := by
  obtain ⟨u, pw, d, hsh, k, t, c, n, _, _⟩ := a
  cases u <;> cases pw <;> cases d <;> cases hsh <;> cases t <;>
    cases c <;> cases n <;> rcases k with _ | (_ | _) <;>
    simp [buildCollectArgs, collectArgsSpec, optFlag, kerbFlagSpec,
      targetsBlockSpec, threadsBlockSpec]

/-! Dispatch-unfolding lemmas: `call_tool` at each literal operation
name. -/

theorem call_tool_collect (a : Arguments) (st : ServerState) (w : World)
    (gp : Int) :
    call_tool "donpapi_collect" a st w gp
      = ⟨renderRunResult
            (run_donpapi_command (buildCollectArgs a) w.collectOutcome
              defaultTimeout),
          st, some (buildCollectArgs a), [], []⟩ := rfl

theorem call_tool_start (a : Arguments) (st : ServerState) (w : World)
    (gp : Int) :
    call_tool "donpapi_start_gui" a st w gp
      = (match st.gui_process with
          | some p =>
              if p.poll = none then
                ⟨"GUI is already running.", st, none, [], []⟩
              else startGuiSpawn a st w gp
          | none => startGuiSpawn a st w gp) := rfl

theorem call_tool_stop (a : Arguments) (st : ServerState) (w : World)
    (gp : Int) :
    call_tool "donpapi_stop_gui" a st w gp
      = (match st.gui_process with
          | some p => ⟨"DonPAPI GUI stopped.", ⟨none⟩, none, [], [p]⟩
          | none => ⟨"GUI is not running.", st, none, [], []⟩) := rfl

theorem call_tool_other (name : String) (a : Arguments)
    (st : ServerState) (w : World) (gp : Int)
    (h1 : name ≠ "donpapi_collect") (h2 : name ≠ "donpapi_start_gui")
    (h3 : name ≠ "donpapi_stop_gui") :
    call_tool name a st w gp
      = ⟨"Unknown tool: " ++ name, st, none, [], []⟩ := by
  unfold call_tool
  rw [if_neg h1, if_neg h2, if_neg h3]

/-! Auxiliary string lemma for the command-line reconstruction. -/

theorem foldl_sep_append (l : List String) (s t : String) :
    l.foldl (fun acc y => acc ++ " " ++ y) (s ++ t)
      = s ++ l.foldl (fun acc y => acc ++ " " ++ y) t := by
  induction l generalizing t with
  | nil => rfl
  | cons x xs ih =>
      have h : s ++ t ++ " " ++ x = s ++ (t ++ " " ++ x) := by
        simp [String.append_assoc]
      rw [List.foldl_cons, List.foldl_cons, h, ih]

/-- C1.  The collect branch hands the Command Runner exactly the vector
`["collect"]` followed by the §4.1 blocks in their fixed order — each
flag present exactly when its parameter key is present in the bundle,
and no flag for an absent parameter. -/
theorem collect_argument_vector (a : Arguments) (st : ServerState)
    (w : World) (gp : Int) :
    (call_tool "donpapi_collect" a st w gp).ranArgs
        = some (collectArgsSpec a)
    ∧ buildCollectArgs a = collectArgsSpec a := by
  refine ⟨?_, buildCollectArgs_eq_spec a⟩
  rw [call_tool_collect, buildCollectArgs_eq_spec]

/-- C2.  On normal subprocess exit, `run_donpapi_command` returns the
`{success, stdout, stderr, command}` dict with `success` true iff the
exit code is zero, the captured streams passed through unchanged, and
the command string equal to `"donpapi"` followed by the arguments
joined by single spaces. -/
theorem run_donpapi_normal_exit (args : List String) (rc : Int)
    (outTxt errTxt : String) (t : Nat) :
    run_donpapi_command args (.completed rc outTxt errTxt) t
        = .ok (rc == 0) outTxt errTxt (pyJoin " " ("donpapi" :: args))
    ∧ ((rc == 0) = true ↔ rc = 0)
    ∧ pyJoin " " ("donpapi" :: args)
        = "donpapi" ++ args.foldl (fun acc y => acc ++ " " ++ y) "" := by
  refine ⟨rfl, beq_iff_eq, ?_⟩
  show args.foldl (fun acc y => acc ++ " " ++ y) "donpapi" = _
  have h : ("donpapi" : String) = "donpapi" ++ "" := by simp
  rw [h, foldl_sep_append]
  simp

/-- C3.  `run_donpapi_command` is total over every subprocess outcome
(the Python `try/except Exception` never lets an exception escape): on
timeout it returns a failure result whose message embeds the configured
timeout value, on any other execution failure it returns a failure
result carrying the exception's string description, and the timeout
parameter's Python default is 600. -/
theorem run_donpapi_failure_paths (args : List String) (t : Nat)
    (e : String) :
    run_donpapi_command args .timedOut t
        = .err false ("Command timed out after " ++ toString t ++ "s")
    ∧ (∃ pre post,
        ("Command timed out after " ++ toString t ++ "s")
          = pre ++ toString t ++ post)
    ∧ run_donpapi_command args (.failed e) t = .err false e
    ∧ defaultTimeout = 600
    ∧ (∀ outcome : ExecOutcome,
        (run_donpapi_command args outcome t).successFlag = true →
          ∃ rc outTxt errTxt, outcome = .completed rc outTxt errTxt) := by
  refine ⟨rfl, ⟨"Command timed out after ", "s", rfl⟩, rfl, rfl, ?_⟩
  intro outcome h
  cases outcome with
  | completed rc outTxt errTxt => exact ⟨rc, outTxt, errTxt, rfl⟩
  | timedOut => simp [run_donpapi_command, RunResult.successFlag] at h
  | failed msg => simp [run_donpapi_command, RunResult.successFlag] at h

/-! Concrete processes, states and worlds used by the witnesses. -/

/-- A tracked GUI process that is still alive (`poll()` is `None`). -/
def procLive : Proc := ⟨1, none⟩

/-- A tracked GUI process that already exited on its own with code 1. -/
def procDead : Proc := ⟨2, some 1⟩

/-- The process a successful `Popen` produces. -/
def procNew : Proc := ⟨3, none⟩

/-- A world where both subprocess primitives succeed. -/
def wOk : World := ⟨.completed 0 "" "", .ok procNew⟩

/-- A world where `Popen` raises. -/
def wRaise : World := ⟨.completed 0 "" "", .raise "spawn failed"⟩

/-- C4.  The single-instance guard of `start_gui`: with a tracked handle
whose process is still alive (liveness re-checked via `poll()` at call
time), the call returns the "already running" text, spawns nothing and
leaves the whole state unchanged; with a tracked handle whose process
has already exited, the call instead proceeds to spawn a new process
and stores its handle. -/
theorem start_gui_single_instance (a : Arguments) (st : ServerState)
    (w : World) (gp : Int) (p : Proc) (hp : st.gui_process = some p) :
    (p.poll = none →
      call_tool "donpapi_start_gui" a st w gp
        = ⟨"GUI is already running.", st, none, [], []⟩)
    ∧ (∀ c q, p.poll = some c → w.spawnOutcome = .ok q →
      (call_tool "donpapi_start_gui" a st w gp).spawned
          = [["donpapi", "gui", "--bind", a.bind.getD "0.0.0.0",
              "--port", toString (a.port.getD gp)]]
      ∧ (call_tool "donpapi_start_gui" a st w gp).state = ⟨some q⟩) := by
  constructor
  · intro hpoll
    rw [call_tool_start, hp]
    simp [hpoll]
  · intro c q hpoll hspawn
    rw [call_tool_start, hp]
    simp [hpoll, startGuiSpawn, hspawn]

theorem start_gui_single_instance_witness :
    (⟨some procLive⟩ : ServerState).gui_process = some procLive
    ∧ ((procLive.poll = none →
        call_tool "donpapi_start_gui" Arguments.empty ⟨some procLive⟩ wOk 8088
          = ⟨"GUI is already running.", ⟨some procLive⟩, none, [], []⟩)
      ∧ (∀ c q, procLive.poll = some c → wOk.spawnOutcome = .ok q →
        (call_tool "donpapi_start_gui" Arguments.empty ⟨some procLive⟩ wOk
              8088).spawned
            = [["donpapi", "gui", "--bind",
                Arguments.empty.bind.getD "0.0.0.0", "--port",
                toString (Arguments.empty.port.getD 8088)]]
        ∧ (call_tool "donpapi_start_gui" Arguments.empty ⟨some procLive⟩ wOk
              8088).state = ⟨some q⟩)) :=
  ⟨rfl,
    start_gui_single_instance Arguments.empty ⟨some procLive⟩ wOk 8088
      procLive rfl⟩

/-- C5.  `stop_gui` with a tracked handle sends the terminate request to
that process, clears the singleton and returns the confirmation text;
the cleared state lets a subsequent `start_gui` spawn and store a new
handle; `stop_gui` with no tracked handle returns the "not running"
text and changes nothing. -/
theorem stop_gui_behaviour (a a2 : Arguments) (st : ServerState)
    (w w2 : World) (gp : Int) (p q : Proc)
    (hp : st.gui_process = some p) (hq : w2.spawnOutcome = .ok q) :
    call_tool "donpapi_stop_gui" a st w gp
        = ⟨"DonPAPI GUI stopped.", ⟨none⟩, none, [], [p]⟩
    ∧ (call_tool "donpapi_start_gui" a2
          (call_tool "donpapi_stop_gui" a st w gp).state w2 gp).state
        = ⟨some q⟩
    ∧ call_tool "donpapi_stop_gui" a ⟨none⟩ w gp
        = ⟨"GUI is not running.", ⟨none⟩, none, [], []⟩ := by
  have h1 : call_tool "donpapi_stop_gui" a st w gp
      = ⟨"DonPAPI GUI stopped.", ⟨none⟩, none, [], [p]⟩ := by
    rw [call_tool_stop, hp]
  refine ⟨h1, ?_, ?_⟩
  · rw [h1]
    rw [call_tool_start]
    simp [startGuiSpawn, hq]
  · rw [call_tool_stop]

theorem stop_gui_behaviour_witness :
    (⟨some procLive⟩ : ServerState).gui_process = some procLive
    ∧ wOk.spawnOutcome = .ok procNew
    ∧ (call_tool "donpapi_stop_gui" Arguments.empty ⟨some procLive⟩ wOk 8088
          = ⟨"DonPAPI GUI stopped.", ⟨none⟩, none, [], [procLive]⟩
      ∧ (call_tool "donpapi_start_gui" Arguments.empty
            (call_tool "donpapi_stop_gui" Arguments.empty ⟨some procLive⟩ wOk
                8088).state wOk 8088).state
          = ⟨some procNew⟩
      ∧ call_tool "donpapi_stop_gui" Arguments.empty ⟨none⟩ wOk 8088
          = ⟨"GUI is not running.", ⟨none⟩, none, [], []⟩) :=
  ⟨rfl, rfl,
    stop_gui_behaviour Arguments.empty Arguments.empty ⟨some procLive⟩ wOk
      wOk 8088 procLive procNew rfl rfl⟩

/-- C6.  A successful `start_gui` with no tracked process spawns exactly
`["donpapi", "gui", "--bind", bind, "--port", str(port)]`, stores the
new handle as the singleton, and returns the confirmation text
embedding the bind address and port; `bind` defaults to `"0.0.0.0"`,
`port` defaults to the process-wide GUI port, which itself defaults to
8088. -/
theorem start_gui_spawn_success (a : Arguments) (st : ServerState)
    (w : World) (gp : Int) (q : Proc)
    (hnone : st.gui_process = none) (hq : w.spawnOutcome = .ok q) :
    call_tool "donpapi_start_gui" a st w gp
      = ⟨"DonPAPI GUI started on http://" ++ a.bind.getD "0.0.0.0" ++ ":"
            ++ toString (a.port.getD gp),
          ⟨some q⟩, none,
          [["donpapi", "gui", "--bind", a.bind.getD "0.0.0.0", "--port",
            toString (a.port.getD gp)]], []⟩
    ∧ (a.bind = none → a.bind.getD "0.0.0.0" = "0.0.0.0")
    ∧ (a.port = none → a.port.getD gp = gp)
    ∧ GUI_PORT none = 8088 := by
  refine ⟨?_, fun hb => by rw [hb]; rfl, fun hpo => by rw [hpo]; rfl, rfl⟩
  rw [call_tool_start, hnone]
  simp [startGuiSpawn, hq]

theorem start_gui_spawn_success_witness :
    (⟨none⟩ : ServerState).gui_process = none
    ∧ wOk.spawnOutcome = .ok procNew
    ∧ (call_tool "donpapi_start_gui" Arguments.empty ⟨none⟩ wOk 8088
        = ⟨"DonPAPI GUI started on http://"
              ++ Arguments.empty.bind.getD "0.0.0.0" ++ ":"
              ++ toString (Arguments.empty.port.getD 8088),
            ⟨some procNew⟩, none,
            [["donpapi", "gui", "--bind",
              Arguments.empty.bind.getD "0.0.0.0", "--port",
              toString (Arguments.empty.port.getD 8088)]], []⟩
      ∧ (Arguments.empty.bind = none →
          Arguments.empty.bind.getD "0.0.0.0" = "0.0.0.0")
      ∧ (Arguments.empty.port = none → Arguments.empty.port.getD 8088 = 8088)
      ∧ GUI_PORT none = 8088) :=
  ⟨rfl, rfl,
    start_gui_spawn_success Arguments.empty ⟨none⟩ wOk 8088 procNew rfl rfl⟩

/-- C7 counterexample.  The claim says a failed spawn leaves the
singleton handle unset, but when the guard was passed through a stale
dead handle, the Python assignment `gui_process = Popen(...)` never
executes, so the old handle is still set after the failure: here the
state before the call tracks `procDead`, `Popen` raises, the failure
text is returned — and the handle is still `some procDead`, not
unset. -/
theorem start_gui_spawn_failure_counterexample :
    (call_tool "donpapi_start_gui" Arguments.empty ⟨some procDead⟩ wRaise
          8088).text
        = "Failed to start GUI: " ++ "spawn failed"
    ∧ ¬ (call_tool "donpapi_start_gui" Arguments.empty ⟨some procDead⟩
          wRaise 8088).state.gui_process = none := by
  have h : (call_tool "donpapi_start_gui" Arguments.empty ⟨some procDead⟩
      wRaise 8088).state.gui_process = some procDead := rfl
  refine ⟨rfl, ?_⟩
  rw [h]
  simp

/-- C7 (amended).  If `Popen` raises, `start_gui` returns the failure
text embedding the exception's description, spawns nothing, and leaves
the tracked-process state exactly as it was before the call — in
particular still unset whenever it was unset. -/
theorem start_gui_spawn_failure (a : Arguments) (st : ServerState)
    (w : World) (gp : Int) (e : String)
    (hguard : st.gui_process = none
        ∨ ∃ p c, st.gui_process = some p ∧ p.poll = some c)
    (hraise : w.spawnOutcome = .raise e) :
    call_tool "donpapi_start_gui" a st w gp
      = ⟨"Failed to start GUI: " ++ e, st, none, [], []⟩ := by
  rcases hguard with h | ⟨p, c, hp, hc⟩
  · rw [call_tool_start, h]
    simp [startGuiSpawn, hraise]
  · rw [call_tool_start, hp]
    simp [hc, startGuiSpawn, hraise]

theorem start_gui_spawn_failure_witness :
    ((⟨none⟩ : ServerState).gui_process = none
        ∨ ∃ p c, (⟨none⟩ : ServerState).gui_process = some p
            ∧ p.poll = some c)
    ∧ wRaise.spawnOutcome = .raise "spawn failed"
    ∧ call_tool "donpapi_start_gui" Arguments.empty ⟨none⟩ wRaise 8088
        = ⟨"Failed to start GUI: " ++ "spawn failed", ⟨none⟩, none, [],
            []⟩ :=
  ⟨Or.inl rfl, rfl,
    start_gui_spawn_failure Arguments.empty ⟨none⟩ wRaise 8088
      "spawn failed" (Or.inl rfl) rfl⟩

/-- C8.  Any operation name other than the three registered ones gets
the descriptive "Unknown tool" text naming the operation; the call
returns normally, the tracked handle and the whole state are unchanged,
and nothing is spawned or terminated. -/
theorem unknown_tool_dispatch (name : String) (a : Arguments)
    (st : ServerState) (w : World) (gp : Int)
    (h1 : name ≠ "donpapi_collect") (h2 : name ≠ "donpapi_start_gui")
    (h3 : name ≠ "donpapi_stop_gui") :
    call_tool name a st w gp
        = ⟨"Unknown tool: " ++ name, st, none, [], []⟩
    ∧ (call_tool name a st w gp).state.gui_process = st.gui_process := by
  have h := call_tool_other name a st w gp h1 h2 h3
  exact ⟨h, by rw [h]⟩

theorem unknown_tool_dispatch_witness :
    ("bogus_tool" ≠ "donpapi_collect")
    ∧ ("bogus_tool" ≠ "donpapi_start_gui")
    ∧ ("bogus_tool" ≠ "donpapi_stop_gui")
    ∧ (call_tool "bogus_tool" Arguments.empty ⟨some procLive⟩ wOk 8088
          = ⟨"Unknown tool: " ++ "bogus_tool", ⟨some procLive⟩, none, [],
              []⟩
      ∧ (call_tool "bogus_tool" Arguments.empty ⟨some procLive⟩ wOk
            8088).state.gui_process
          = (⟨some procLive⟩ : ServerState).gui_process) :=
  ⟨by decide, by decide, by decide,
    unknown_tool_dispatch "bogus_tool" Arguments.empty ⟨some procLive⟩ wOk
      8088 (by decide) (by decide) (by decide)⟩

/-- C10.  `stop_gui` performs no liveness check: with a tracked handle
whose process has already exited on its own, it still sends the
terminate request, clears the singleton and returns the "stopped"
confirmation; only `start_gui` distinguishes a stale dead handle — on
the same state it takes the spawn path, not the "already running"
path. -/
theorem stop_gui_no_liveness_check (a : Arguments) (st : ServerState)
    (w : World) (gp : Int) (p : Proc) (c : Int)
    (hp : st.gui_process = some p) (hdead : p.poll = some c) :
    call_tool "donpapi_stop_gui" a st w gp
        = ⟨"DonPAPI GUI stopped.", ⟨none⟩, none, [], [p]⟩
    ∧ call_tool "donpapi_start_gui" a st w gp = startGuiSpawn a st w gp := by
  constructor
  · rw [call_tool_stop, hp]
  · rw [call_tool_start, hp]
    simp [hdead]

theorem stop_gui_no_liveness_check_witness :
    (⟨some procDead⟩ : ServerState).gui_process = some procDead
    ∧ procDead.poll = some 1
    ∧ (call_tool "donpapi_stop_gui" Arguments.empty ⟨some procDead⟩ wOk
          8088
        = ⟨"DonPAPI GUI stopped.", ⟨none⟩, none, [], [procDead]⟩
      ∧ call_tool "donpapi_start_gui" Arguments.empty ⟨some procDead⟩ wOk
            8088
          = startGuiSpawn Arguments.empty ⟨some procDead⟩ wOk 8088) :=
  ⟨rfl, rfl,
    stop_gui_no_liveness_check Arguments.empty ⟨some procDead⟩ wOk 8088
      procDead 1 rfl rfl⟩

/-! Token-membership lemmas for the `-k` flag claim: no §4.1 block other
than the Kerberos one can contribute a `-k` token, as long as no
parameter *value* is itself the string `"-k"`. -/

theorem notMem_optFlag (x f : String) (v : Option String) (hf : x ≠ f)
    (hv : v ≠ some x) : x ∉ optFlag f v := by
  cases v with
  | none => simp [optFlag]
  | some u =>
      simp [optFlag]
      exact ⟨hf, fun h => hv (by rw [h])⟩

theorem notMem_targetsBlockSpec (x : String) (t : Option String)
    (hx : x ≠ "-t") (ht : ∀ s, t = some s → x ∉ pySplit s) :
    x ∉ targetsBlockSpec t := by
  cases t with
  | none => simp [targetsBlockSpec]
  | some s =>
      simp [targetsBlockSpec]
      exact ⟨hx, ht s rfl⟩

theorem notMem_threadsBlockSpec (x : String) (n : Option Int)
    (hx : x ≠ "--threads") (hn : ∀ m, n = some m → x ≠ toString m) :
    x ∉ threadsBlockSpec n := by
  cases n with
  | none => simp [threadsBlockSpec]
  | some m =>
      simp [threadsBlockSpec]
      exact ⟨hx, hn m rfl⟩

/-- C9.  For any bundle whose parameter values do not themselves contain
the literal token `"-k"`: when `use_kerberos` is true the collect
vector contains the token `-k` exactly once, bare — the vector splits
as the auth blocks, then `["-k"]`, then the remaining blocks, and the
token following `-k`, if any, is one of the flags `-t`, `-c`,
`--threads`, never a value; when `use_kerberos` is false or absent the
vector contains no `-k` token at all. -/
theorem kerberos_flag_emission (a : Arguments)
    (h : "-k" ∉ collectValueTokens a) :
    (a.use_kerberos = some true →
        List.count "-k" (buildCollectArgs a) = 1
        ∧ buildCollectArgs a
            = (["collect"] ++ optFlag "-u" a.username
                ++ optFlag "-p" a.password ++ optFlag "-d" a.domain
                ++ optFlag "-H" a.hashes) ++ ["-k"]
              ++ (targetsBlockSpec a.targets ++ optFlag "-c" a.collectors
                  ++ threadsBlockSpec a.threads)
        ∧ (∀ nxt, (targetsBlockSpec a.targets ++ optFlag "-c" a.collectors
              ++ threadsBlockSpec a.threads).head? = some nxt →
            nxt = "-t" ∨ nxt = "-c" ∨ nxt = "--threads"))
    ∧ ((a.use_kerberos = some false ∨ a.use_kerberos = none) →
        "-k" ∉ buildCollectArgs a) := by
  have hxu : a.username ≠ some "-k" := fun hu =>
    h (by simp [collectValueTokens, hu])
  have hxp : a.password ≠ some "-k" := fun hp =>
    h (by simp [collectValueTokens, hp])
  have hxd : a.domain ≠ some "-k" := fun hd =>
    h (by simp [collectValueTokens, hd])
  have hxh : a.hashes ≠ some "-k" := fun hh =>
    h (by simp [collectValueTokens, hh])
  have hxc : a.collectors ≠ some "-k" := fun hc =>
    h (by simp [collectValueTokens, hc])
  have hxt : ∀ s, a.targets = some s → "-k" ∉ pySplit s := fun s hs hm =>
    h (by simp [collectValueTokens, hs, List.mem_append]; tauto)
  have hxn : ∀ m : Int, a.threads = some m → ("-k" : String) ≠ toString m :=
    fun m hm he => h (by simp [collectValueTokens, hm, ← he])
  have n0 : "-k" ∉ (["collect"] : List String) := by decide
  have n1 : "-k" ∉ optFlag "-u" a.username :=
    notMem_optFlag _ _ _ (by decide) hxu
  have n2 : "-k" ∉ optFlag "-p" a.password :=
    notMem_optFlag _ _ _ (by decide) hxp
  have n3 : "-k" ∉ optFlag "-d" a.domain :=
    notMem_optFlag _ _ _ (by decide) hxd
  have n4 : "-k" ∉ optFlag "-H" a.hashes :=
    notMem_optFlag _ _ _ (by decide) hxh
  have n5 : "-k" ∉ targetsBlockSpec a.targets :=
    notMem_targetsBlockSpec _ _ (by decide) hxt
  have n6 : "-k" ∉ optFlag "-c" a.collectors :=
    notMem_optFlag _ _ _ (by decide) hxc
  have n7 : "-k" ∉ threadsBlockSpec a.threads :=
    notMem_threadsBlockSpec _ _ (by decide) hxn
  constructor
  · intro hk
    refine ⟨?_, ?_, ?_⟩
    · rw [buildCollectArgs_eq_spec, collectArgsSpec]
      simp [kerbFlagSpec, hk, List.count_append,
        List.count_eq_zero.mpr n0, List.count_eq_zero.mpr n1,
        List.count_eq_zero.mpr n2, List.count_eq_zero.mpr n3,
        List.count_eq_zero.mpr n4, List.count_eq_zero.mpr n5,
        List.count_eq_zero.mpr n6, List.count_eq_zero.mpr n7]
    · rw [buildCollectArgs_eq_spec, collectArgsSpec]
      simp [kerbFlagSpec, hk, List.append_assoc]
    · intro nxt hnxt
      rcases ht : a.targets with _ | s
      · rcases hc : a.collectors with _ | c
        · rcases hn : a.threads with _ | m
          · rw [ht, hc, hn] at hnxt
            simp [targetsBlockSpec, optFlag, threadsBlockSpec] at hnxt
          · rw [ht, hc, hn] at hnxt
            simp [targetsBlockSpec, optFlag, threadsBlockSpec] at hnxt
            tauto
        · rw [ht, hc] at hnxt
          simp [targetsBlockSpec, optFlag] at hnxt
          tauto
      · rw [ht] at hnxt
        simp [targetsBlockSpec] at hnxt
        tauto
  · intro hk'
    have hkne : kerbFlagSpec a.use_kerberos = [] := by
      rcases hk' with hf | hf <;> simp [kerbFlagSpec, hf]
    rw [buildCollectArgs_eq_spec, collectArgsSpec, hkne]
    intro hm
    simp only [List.append_nil, List.mem_append] at hm
    rcases hm with ((((((hm | hm) | hm) | hm) | hm) | hm) | hm) | hm
    · exact n0 hm
    · exact n1 hm
    · exact n2 hm
    · exact n3 hm
    · exact n4 hm
    · exact n5 hm
    · exact n6 hm
    · exact n7 hm

/-- The concrete bundle used to witness the `-k` claim: Kerberos on,
two targets, fifty threads. -/
def aKerb : Arguments :=
  ⟨some "administrator", none, none, none, some true,
    some "10.0.0.1 10.0.0.2", none, some 50, none, none⟩

theorem kerberos_flag_emission_witness :
    ("-k" ∉ collectValueTokens aKerb)
    ∧ ((aKerb.use_kerberos = some true →
          List.count "-k" (buildCollectArgs aKerb) = 1
          ∧ buildCollectArgs aKerb
              = (["collect"] ++ optFlag "-u" aKerb.username
                  ++ optFlag "-p" aKerb.password
                  ++ optFlag "-d" aKerb.domain
                  ++ optFlag "-H" aKerb.hashes) ++ ["-k"]
                ++ (targetsBlockSpec aKerb.targets
                    ++ optFlag "-c" aKerb.collectors
                    ++ threadsBlockSpec aKerb.threads)
          ∧ (∀ nxt, (targetsBlockSpec aKerb.targets
                ++ optFlag "-c" aKerb.collectors
                ++ threadsBlockSpec aKerb.threads).head? = some nxt →
              nxt = "-t" ∨ nxt = "-c" ∨ nxt = "--threads"))
      ∧ ((aKerb.use_kerberos = some false ∨ aKerb.use_kerberos = none) →
          "-k" ∉ buildCollectArgs aKerb)) :=
  ⟨by decide, kerberos_flag_emission aKerb (by decide)⟩
